import Mathlib

/-!
Shallow embedding of the procedural mesh generators of
`src/Windows/Common/Source/esShapes.c` (esGenSphere, esGenCube, esGenArrow).

Modelling conventions:
- C `float` values are embedded as exact rationals `ℚ`; the C library
  functions `sinf` and `cosf` are abstract parameters `s c : ℚ → ℚ`.
- The nonnegative C `int` parameter `numSlices` is embedded as `ℕ`
  (C integer division `numSlices / 2` coincides with `Nat` division there).
- A `GLfloat **` output slot is a request flag (`Bool`, `true` = non-null
  pointer passed) paired with an output of type `Option (List ℚ)` in the
  result record: `none` means the slot was never allocated or written.
- Reading through a null pointer is the error branch: `esGenSphere`
  returns `Option SphereResult`, and `none` models the undefined behaviour
  of dereferencing `*vertices` when `vertices == NULL` in the normals loop.
- In `esGenArrow`, `malloc` returns a buffer of indeterminate floats and
  `memcpy` only initialises a prefix; an indeterminate float is modelled
  as `Option ℚ` with value `none`.
-/

/-- The constant `ES_PI` of esShapes.c. -/
def ES_PI : ℚ := 3.14159265

structure SphereResult where
  vertices : Option (List ℚ)
  normals : Option (List ℚ)
  texCoords : Option (List ℚ)
  indices : Option (List ℕ)
  ret : ℕ
deriving DecidableEq

/-- The three position floats written for grid point `(i, j)` in the
vertex loop of `esGenSphere`. -/
def sphereVertexTriple (s c : ℚ → ℚ) (angleStep radius : ℚ) (i j : ℕ) : List ℚ :=
  [radius * s (angleStep * (i : ℚ)) * s (angleStep * (j : ℚ)),
   radius * c (angleStep * (i : ℚ)),
   radius * s (angleStep * (i : ℚ)) * c (angleStep * (j : ℚ))]

/-- The vertices buffer of `esGenSphere`: the loop writes, for each
`i ≤ numParallels` and `j ≤ numSlices`, three floats at offset
`(i * (numSlices + 1) + j) * 3`, which is exactly this concatenation in
increasing offset order. -/
def sphereVerticesBuf (s c : ℚ → ℚ) (angleStep radius : ℚ)
    (numParallels numSlices : ℕ) : List ℚ :=
  (List.range (numParallels + 1)).flatMap fun i =>
    (List.range (numSlices + 1)).flatMap fun j =>
      sphereVertexTriple s c angleStep radius i j

/-- The two texcoord floats written for grid point `(i, j)`; note the
source computes `(1.0f - (float) i) / (float) (numParallels - 1)` with the
subtraction in C `int` arithmetic, embedded here over `ℚ`. -/
def sphereTexPair (numParallels numSlices : ℕ) (i j : ℕ) : List ℚ :=
  [(j : ℚ) / (numSlices : ℚ),
   (1 - (i : ℚ)) / ((numParallels : ℚ) - 1)]

/-- The texCoords buffer of `esGenSphere`. -/
def sphereTexBuf (numParallels numSlices : ℕ) : List ℚ :=
  (List.range (numParallels + 1)).flatMap fun i =>
    (List.range (numSlices + 1)).flatMap fun j =>
      sphereTexPair numParallels numSlices i j

/-- The six indices emitted for grid cell `(i, j)` in the index loop of
`esGenSphere`. -/
def sphereCellIndices (numSlices i j : ℕ) : List ℕ :=
  [i * (numSlices + 1) + j,
   (i + 1) * (numSlices + 1) + j,
   (i + 1) * (numSlices + 1) + (j + 1),
   i * (numSlices + 1) + j,
   (i + 1) * (numSlices + 1) + (j + 1),
   i * (numSlices + 1) + (j + 1)]

/-- The index buffer of `esGenSphere`: the double loop appends the six
indices of every cell `(i, j)` with `i < numParallels`, `j < numSlices`. -/
def sphereIndicesBuf (numParallels numSlices : ℕ) : List ℕ :=
  (List.range numParallels).flatMap fun i =>
    (List.range numSlices).flatMap fun j =>
      sphereCellIndices numSlices i j

/-- `esGenSphere` of esShapes.c.  The flags `wantV wantN wantT wantI` model
the nullness of the four output-slot pointers.  When normals are requested
the loop body reads `(*vertices)[vertex + k]`; with `numSlices : ℕ` the
loop body always runs at least once, so a null `vertices` slot makes that
read a null-pointer dereference, modelled by the `none` result. -/
def esGenSphere (s c : ℚ → ℚ) (numSlices : ℕ) (radius : ℚ)
    (wantV wantN wantT wantI : Bool) : Option SphereResult :=
  let numParallels := numSlices / 2
  let numVertices := (numParallels + 1) * (numSlices + 1)
  let numIndices := numParallels * numSlices * 6
  let angleStep : ℚ := (2 * ES_PI) / (numSlices : ℚ)
  let _ := numVertices
  if wantN && !wantV then
    none
  else
    some
      { vertices :=
          if wantV then some (sphereVerticesBuf s c angleStep radius numParallels numSlices)
          else none
        normals :=
          if wantN then
            some ((sphereVerticesBuf s c angleStep radius numParallels numSlices).map
              (fun x => x / radius))
          else none
        texCoords :=
          if wantT then some (sphereTexBuf numParallels numSlices) else none
        indices :=
          if wantI then some (sphereIndicesBuf numParallels numSlices) else none
        ret := numIndices }

structure CubeResult where
  vertices : Option (List ℚ)
  normals : Option (List ℚ)
  texCoords : Option (List ℚ)
  indices : Option (List ℕ)
  ret : ℕ
deriving DecidableEq

/-- The constant table `cubeVerts` of `esGenCube` (24 vertices · 3 floats). -/
def cubeVerts : List ℚ :=
  [-0.5, -0.5, -0.5,
   -0.5, -0.5,  0.5,
    0.5, -0.5,  0.5,
    0.5, -0.5, -0.5,
   -0.5,  0.5, -0.5,
   -0.5,  0.5,  0.5,
    0.5,  0.5,  0.5,
    0.5,  0.5, -0.5,
   -0.5, -0.5, -0.5,
   -0.5,  0.5, -0.5,
    0.5,  0.5, -0.5,
    0.5, -0.5, -0.5,
   -0.5, -0.5,  0.5,
   -0.5,  0.5,  0.5,
    0.5,  0.5,  0.5,
    0.5, -0.5,  0.5,
   -0.5, -0.5, -0.5,
   -0.5, -0.5,  0.5,
   -0.5,  0.5,  0.5,
   -0.5,  0.5, -0.5,
    0.5, -0.5, -0.5,
    0.5, -0.5,  0.5,
    0.5,  0.5,  0.5,
    0.5,  0.5, -0.5]

/-- The constant table `cubeNormals` of `esGenCube`. -/
def cubeNormals : List ℚ :=
  [0, -1, 0,  0, -1, 0,  0, -1, 0,  0, -1, 0,
   0, 1, 0,  0, 1, 0,  0, 1, 0,  0, 1, 0,
   0, 0, -1,  0, 0, -1,  0, 0, -1,  0, 0, -1,
   0, 0, 1,  0, 0, 1,  0, 0, 1,  0, 0, 1,
   -1, 0, 0,  -1, 0, 0,  -1, 0, 0,  -1, 0, 0,
   1, 0, 0,  1, 0, 0,  1, 0, 0,  1, 0, 0]

/-- The constant table `cubeTex` of `esGenCube`. -/
def cubeTex : List ℚ :=
  [0, 0,  0, 1,  1, 1,  1, 0,
   1, 0,  1, 1,  0, 1,  0, 0,
   0, 0,  0, 1,  1, 1,  1, 0,
   0, 0,  0, 1,  1, 1,  1, 0,
   0, 0,  0, 1,  1, 1,  1, 0,
   0, 0,  0, 1,  1, 1,  1, 0]

/-- The constant table `cubeIndices` of `esGenCube`. -/
def cubeIndices : List ℕ :=
  [0, 2, 1,  0, 3, 2,
   4, 5, 6,  4, 6, 7,
   8, 9, 10,  8, 10, 11,
   12, 15, 14,  12, 14, 13,
   16, 17, 18,  16, 18, 19,
   20, 23, 22,  20, 22, 21]

/-- `esGenCube` of esShapes.c: copies the constant tables into fresh
buffers, multiplies every position float by `scale`, and returns 36. -/
def esGenCube (scale : ℚ) (wantV wantN wantT wantI : Bool) : CubeResult :=
  { vertices := if wantV then some (cubeVerts.map (fun x => x * scale)) else none
    normals := if wantN then some cubeNormals else none
    texCoords := if wantT then some cubeTex else none
    indices := if wantI then some cubeIndices else none
    ret := 36 }

structure ArrowResult where
  vertices : Option (List (Option ℚ))
  colors : Option (List ℚ)
  normals : Option (List ℚ)
  texCoords : Option (List ℚ)
  indices : Option (List ℕ)
  ret : ℕ
deriving DecidableEq

/-- The initialiser `arrowVerts` of `esGenArrow`: with the commented-out
rows removed it holds only 6 vertices (18 floats): ARROW_V1, ARROW_V4,
ARROW_V2, ARROW_V1, ARROW_V4, ARROW_V3. -/
def arrowVerts : List ℚ :=
  [0, 1, 0,
   0, 0, 0.3,
   -0.3, -0.3, 0,
   0, 1, 0,
   0, 0, 0.3,
   0.3, -0.3, 0]

/-- The constant table `arrowColors` of `esGenArrow` (12 colors · 4 floats):
three copies each of ARROW_C1, ARROW_C2, ARROW_C3, ARROW_C1. -/
def arrowColors : List ℚ :=
  [1, 0, 0, 0,  1, 0, 0, 0,  1, 0, 0, 0,
   0, 1, 0, 0,  0, 1, 0, 0,  0, 1, 0, 0,
   0, 0, 1, 0,  0, 0, 1, 0,  0, 0, 1, 0,
   1, 0, 0, 0,  1, 0, 0, 0,  1, 0, 0, 0]

/-- The constant table `arrowIndices` of `esGenArrow`. -/
def arrowIndices : List ℕ :=
  [0, 1, 2,  3, 4, 5,  6, 7, 8,  9, 10, 11]

/-- The position buffer of `esGenArrow` before scaling: `malloc` of
`3 * numVertices = 36` floats, of which `memcpy` initialises only
`sizeof(arrowVerts) = 18`; the remaining 18 floats are indeterminate
(`none`). -/
def arrowVertBuf : List (Option ℚ) :=
  arrowVerts.map some ++ List.replicate 18 none

/-- `esGenArrow` of esShapes.c.  The function receives `normals` and
`texCoords` slots but never allocates or writes them.  The scaling loop
runs over all `numVertices * 3 = 36` floats of the position buffer,
including the indeterminate ones. -/
def esGenArrow (scale : ℚ) (wantV wantC wantN wantT wantI : Bool) : ArrowResult :=
  { vertices :=
      if wantV then some (arrowVertBuf.map (Option.map (fun x => x * scale))) else none
    colors := if wantC then some arrowColors else none
    normals := none
    texCoords := none
    indices := if wantI then some arrowIndices else none
    ret := 12 }

/-! Helper lemmas about flatMap over ranges. -/

/-- Length of a flatMap over a range when every chunk has the same length. -/
lemma flatMap_range_length {α : Type} (f : ℕ → List α) (m : ℕ)
    (h : ∀ i, (f i).length = m) (n : ℕ) :
    ((List.range n).flatMap f).length = n * m := by
  induction n with
  | zero => simp
  | succ k ih =>
    rw [List.range_succ, List.flatMap_append, List.flatMap_cons, List.flatMap_nil,
        List.append_nil, List.length_append, ih, h]
    ring

/-- Dropping `i` whole chunks from a flatMap of equal-length chunks lands at
the start of chunk `i`. -/
lemma flatMap_range'_drop {α : Type} (f : ℕ → List α) (m : ℕ)
    (h : ∀ k, (f k).length = m) :
    ∀ (n a i : ℕ), i < n →
      ∃ t, ((List.range' a n).flatMap f).drop (i * m) = f (a + i) ++ t := by
  intro n
  induction n with
  | zero => intro a i hi; exact absurd hi (Nat.not_lt_zero i)
  | succ k ih =>
    intro a i hi
    rw [List.range'_succ, List.flatMap_cons]
    cases i with
    | zero => exact ⟨(List.range' (a + 1) k).flatMap f, by simp⟩
    | succ i' =>
      obtain ⟨t, ht⟩ := ih (a + 1) i' (by omega)
      refine ⟨t, ?_⟩
      have hlen : (i' + 1) * m = (f a).length + i' * m := by rw [h]; ring
      have hrw : a + 1 + i' = a + (i' + 1) := by omega
      rw [hlen, List.drop_append, ht, hrw]

/-- Every index emitted by the sphere index loop is below
`(numParallels + 1) * (numSlices + 1)`. -/
lemma sphereIndicesBuf_mem_lt (P S : ℕ) :
    ∀ x ∈ sphereIndicesBuf P S, x < (P + 1) * (S + 1) := by
  intro x hx
  rw [sphereIndicesBuf] at hx
  obtain ⟨i, hi, hx⟩ := List.mem_flatMap.1 hx
  obtain ⟨j, hj, hx⟩ := List.mem_flatMap.1 hx
  have hiP : i < P := List.mem_range.1 hi
  have hjS : j < S := List.mem_range.1 hj
  have key : (i + 1) * (S + 1) + (j + 1) < (P + 1) * (S + 1) := by
    calc (i + 1) * (S + 1) + (j + 1)
        ≤ P * (S + 1) + (j + 1) :=
          Nat.add_le_add_right (Nat.mul_le_mul hiP (Nat.le_refl (S + 1))) _
      _ < P * (S + 1) + (S + 1) := Nat.add_lt_add_left (by omega) _
      _ = (P + 1) * (S + 1) := by ring
  have mono : ∀ a b : ℕ, a ≤ i + 1 → b ≤ j + 1 → a * (S + 1) + b < (P + 1) * (S + 1) :=
    fun a b ha hb =>
      lt_of_le_of_lt (Nat.add_le_add (Nat.mul_le_mul ha (Nat.le_refl (S + 1))) hb) key
  simp only [sphereCellIndices, List.mem_cons, List.not_mem_nil, or_false] at hx
  rcases hx with h | h | h | h | h | h <;> subst h
  · exact mono i j (Nat.le_succ i) (Nat.le_succ j)
  · exact mono (i + 1) j (Nat.le_refl _) (Nat.le_succ j)
  · exact mono (i + 1) (j + 1) (Nat.le_refl _) (Nat.le_refl _)
  · exact mono i j (Nat.le_succ i) (Nat.le_succ j)
  · exact mono (i + 1) (j + 1) (Nat.le_refl _) (Nat.le_refl _)
  · exact mono i (j + 1) (Nat.le_succ i) (Nat.le_refl _)

/-- The sphere vertex buffer holds `3 * vertexCount` floats. -/
lemma sphereVerticesBuf_length (s c : ℚ → ℚ) (a r : ℚ) (P S : ℕ) :
    (sphereVerticesBuf s c a r P S).length = 3 * ((P + 1) * (S + 1)) := by
  rw [sphereVerticesBuf]
  have hin : ∀ i, ((List.range (S + 1)).flatMap fun j =>
      sphereVertexTriple s c a r i j).length = (S + 1) * 3 :=
    fun i => flatMap_range_length (fun j => sphereVertexTriple s c a r i j) 3
      (fun _ => rfl) (S + 1)
  rw [flatMap_range_length _ ((S + 1) * 3) hin (P + 1)]
  ring

/-- The sphere index buffer holds `numParallels * numSlices * 6` entries. -/
lemma sphereIndicesBuf_length (P S : ℕ) :
    (sphereIndicesBuf P S).length = P * S * 6 := by
  rw [sphereIndicesBuf]
  have hin : ∀ i, ((List.range S).flatMap fun j =>
      sphereCellIndices S i j).length = S * 6 :=
    fun i => flatMap_range_length (fun j => sphereCellIndices S i j) 6
      (fun _ => rfl) S
  rw [flatMap_range_length _ (S * 6) hin P]
  ring

/-! Claim theorems. -/

/-- Claim C9: when normals are requested but the vertices slot is null,
the normals loop of esGenSphere reads through the null vertices pointer;
the embedding reaches its error branch for every such call. -/
theorem esGenSphere_normals_need_vertices (s c : ℚ → ℚ) (numSlices : ℕ)
    (radius : ℚ) (wantT wantI : Bool) :
    esGenSphere s c numSlices radius false true wantT wantI = none := rfl

/-- Claim C10: esGenArrow never allocates or writes its normals and
texCoords output slots, whatever the inputs and request flags. -/
theorem esGenArrow_ignores_normals_texCoords (scale : ℚ)
    (wantV wantC wantN wantT wantI : Bool) :
    (esGenArrow scale wantV wantC wantN wantT wantI).normals = none ∧
    (esGenArrow scale wantV wantC wantN wantT wantI).texCoords = none :=
  ⟨rfl, rfl⟩

/-- Claim C7: for each generator, a call requesting only the indices slot
succeeds (no null slot is dereferenced), fills the indices output, and
leaves every other output slot untouched. -/
theorem indicesOnly_call_touches_only_indices (s c : ℚ → ℚ) (numSlices : ℕ)
    (radius cubeScale arrowScale : ℚ) :
    (∃ res, esGenSphere s c numSlices radius false false false true = some res ∧
      res.vertices = none ∧ res.normals = none ∧ res.texCoords = none ∧
      res.indices = some (sphereIndicesBuf (numSlices / 2) numSlices)) ∧
    ((esGenCube cubeScale false false false true).vertices = none ∧
     (esGenCube cubeScale false false false true).normals = none ∧
     (esGenCube cubeScale false false false true).texCoords = none ∧
     (esGenCube cubeScale false false false true).indices = some cubeIndices) ∧
    ((esGenArrow arrowScale false false false false true).vertices = none ∧
     (esGenArrow arrowScale false false false false true).colors = none ∧
     (esGenArrow arrowScale false false false false true).normals = none ∧
     (esGenArrow arrowScale false false false false true).texCoords = none ∧
     (esGenArrow arrowScale false false false false true).indices = some arrowIndices) :=
  ⟨⟨_, rfl, rfl, rfl, rfl, rfl⟩, ⟨rfl, rfl, rfl, rfl⟩, ⟨rfl, rfl, rfl, rfl, rfl⟩⟩

/-- Claim C8: esGenCube(2.0, positions, NULL, NULL, indices) writes
(-1, -1, -1) as the first vertex and (0, 2, 1) as the first triangle. -/
theorem esGenCube_two_first_vertex_and_triangle :
    ∃ vs idx, (esGenCube 2 true false false true).vertices = some vs ∧
      (esGenCube 2 true false false true).indices = some idx ∧
      vs.take 3 = [-1, -1, -1] ∧ idx.take 3 = [0, 2, 1] := by
  refine ⟨_, _, rfl, rfl, ?_, ?_⟩
  · norm_num [cubeVerts]
  · decide

/-- Claim C3 (evidence of the code bug): at scale 1 with every slot
requested, esGenArrow does return 12 and fills the 48 color floats and 12
indices completely, but of the 36-float position buffer only the first 18
floats (6 vertices) are ever initialised: floats 18 to 35 stay
indeterminate, while the index list references vertices 6 to 11. -/
theorem esGenArrow_positions_incomplete :
    ∃ vs, (esGenArrow 1 true true true true true).vertices = some vs ∧
      vs.length = 36 ∧
      (vs.take 18).all (fun x => x.isSome) = true ∧
      (vs.drop 18).all (fun x => x = none) = true ∧
      (esGenArrow 1 true true true true true).colors = some arrowColors ∧
      arrowColors.length = 48 ∧
      (esGenArrow 1 true true true true true).indices = some arrowIndices ∧
      9 ∈ arrowIndices ∧
      (esGenArrow 1 true true true true true).ret = 12 := by
  refine ⟨_, rfl, ?_, ?_, ?_, rfl, ?_, rfl, ?_, rfl⟩ <;> decide

/-- Claim C4: esGenCube returns 36 indices over a 24-vertex mesh for every
scale, and multiplying the scale by k multiplies every position float by k
while the normals and texcoords outputs are unchanged. -/
theorem esGenCube_scale_linearity (scale k : ℚ) (wantN wantT wantI : Bool) :
    (esGenCube (k * scale) true wantN wantT wantI).ret = 36 ∧
    (esGenCube scale true wantN wantT wantI).ret = 36 ∧
    (∃ vs vs2,
      (esGenCube scale true wantN wantT wantI).vertices = some vs ∧
      (esGenCube (k * scale) true wantN wantT wantI).vertices = some vs2 ∧
      vs.length = 3 * 24 ∧
      vs2 = vs.map (fun x => k * x)) ∧
    (esGenCube (k * scale) true wantN wantT wantI).normals =
      (esGenCube scale true wantN wantT wantI).normals ∧
    (esGenCube (k * scale) true wantN wantT wantI).texCoords =
      (esGenCube scale true wantN wantT wantI).texCoords := by
  refine ⟨rfl, rfl, ⟨_, _, rfl, rfl, by rw [List.length_map]; rfl, ?_⟩, rfl, rfl⟩
  rw [List.map_map]
  apply List.map_congr_left
  intro x _
  simp only [Function.comp]
  ring

/-- Claim C1: for slices ≥ 4 the sphere generator computes
vertexCount = (slices/2+1)*(slices+1) and indexCount = (slices/2)*slices*6,
returns the index count, and fills the indices slot with exactly that many
values, each strictly below the vertex count. -/
theorem esGenSphere_counts_and_index_bound (s c : ℚ → ℚ) (numSlices : ℕ)
    (radius : ℚ) (h4 : 4 ≤ numSlices) :
    ∃ res vs idx,
      esGenSphere s c numSlices radius true false false true = some res ∧
      res.ret = numSlices / 2 * numSlices * 6 ∧
      res.vertices = some vs ∧
      vs.length = 3 * ((numSlices / 2 + 1) * (numSlices + 1)) ∧
      res.indices = some idx ∧
      idx.length = numSlices / 2 * numSlices * 6 ∧
      ∀ x ∈ idx, x < (numSlices / 2 + 1) * (numSlices + 1) := by
  refine ⟨_, _, _, rfl, rfl, rfl, ?_, rfl, ?_, ?_⟩
  · exact sphereVerticesBuf_length s c _ radius (numSlices / 2) numSlices
  · exact sphereIndicesBuf_length (numSlices / 2) numSlices
  · exact sphereIndicesBuf_mem_lt (numSlices / 2) numSlices

/-- Witness for claim C1 at slices = 4, radius = 1. -/
theorem esGenSphere_counts_and_index_bound_witness :
    ∃ res vs idx,
      esGenSphere (fun _ => 0) (fun _ => 0) 4 1 true false false true = some res ∧
      res.ret = 4 / 2 * 4 * 6 ∧
      res.vertices = some vs ∧
      vs.length = 3 * ((4 / 2 + 1) * (4 + 1)) ∧
      res.indices = some idx ∧
      idx.length = 4 / 2 * 4 * 6 ∧
      ∀ x ∈ idx, x < (4 / 2 + 1) * (4 + 1) :=
  esGenSphere_counts_and_index_bound (fun _ => 0) (fun _ => 0) 4 1 (by decide)

/-- Claim C2 counterexample: esGenSphere(4, 1.0, vertices, NULL, NULL,
indices) does not produce 24 indices: the returned index count and the
filled index list both have size 48 (shown with the concrete constant-zero
instantiation of the abstract sine and cosine parameters; the index data
does not depend on them). -/
theorem esGenSphere_four_not_24_indices :
    ∃ res idx,
      esGenSphere (fun _ => 0) (fun _ => 0) 4 1 true false false true = some res ∧
      res.indices = some idx ∧ res.ret = 48 ∧ idx.length = 48 ∧
      ¬(idx.length = 24) :=
  ⟨_, _, rfl, rfl, rfl, rfl, by decide⟩

/-- Claim C2 amended: esGenSphere(4, 1.0, vertices, NULL, NULL, indices)
produces 15 vertices (45 position floats) and 48 indices, and the first
vertex equals (0, 1, 0), for any sine and cosine implementations
satisfying sin 0 = 0 and cos 0 = 1 (as the C library sinf and cosf do). -/
theorem esGenSphere_four_concrete (s c : ℚ → ℚ) (hs : s 0 = 0) (hc : c 0 = 1) :
    ∃ res vs idx,
      esGenSphere s c 4 1 true false false true = some res ∧
      res.vertices = some vs ∧ res.indices = some idx ∧
      vs.length = 3 * 15 ∧ idx.length = 48 ∧ res.ret = 48 ∧
      vs.take 3 = [0, 1, 0] := by
  refine ⟨_, _, _, rfl, rfl, rfl, ?_, rfl, rfl, ?_⟩
  · rw [sphereVerticesBuf_length]
  · simp [sphereVerticesBuf, sphereVertexTriple, List.range_succ, hs, hc]

/-- Witness for the amended claim C2. -/
theorem esGenSphere_four_concrete_witness :
    ∃ res vs idx,
      esGenSphere (fun _ => 0) (fun _ => 1) 4 1 true false false true = some res ∧
      res.vertices = some vs ∧ res.indices = some idx ∧
      vs.length = 3 * 15 ∧ idx.length = 48 ∧ res.ret = 48 ∧
      vs.take 3 = [0, 1, 0] :=
  esGenSphere_four_concrete (fun _ => 0) (fun _ => 1) rfl rfl

/-- Claim C5: for slices ≥ 4 and radius > 0, with vertices and normals both
requested, every normal float is the matching position float divided by
radius, and multiplying the normals back by radius recovers the positions
exactly. -/
theorem esGenSphere_normals_div_radius (s c : ℚ → ℚ)
    (numSlices : ℕ) (radius : ℚ) (h4 : 4 ≤ numSlices) (hr : 0 < radius)
    (wantT wantI : Bool) :
    ∃ res vs,
      esGenSphere s c numSlices radius true true wantT wantI = some res ∧
      res.vertices = some vs ∧
      res.normals = some (vs.map (fun x => x / radius)) ∧
      (vs.map (fun x => x / radius)).map (fun x => x * radius) = vs := by
  refine ⟨_, _, rfl, rfl, rfl, ?_⟩
  rw [List.map_map]
  have h : ((fun x => x * radius) ∘ fun x : ℚ => x / radius) = id := by
    funext x
    simp [Function.comp, div_mul_cancel₀ x (ne_of_gt hr)]
  rw [h, List.map_id]

/-- Witness for claim C5 at slices = 4, radius = 1. -/
theorem esGenSphere_normals_div_radius_witness :
    ∃ res vs,
      esGenSphere (fun _ => 0) (fun _ => 0) 4 1 true true false false = some res ∧
      res.vertices = some vs ∧
      res.normals = some (vs.map (fun x => x / 1)) ∧
      (vs.map (fun x => x / 1)).map (fun x => x * 1) = vs :=
  esGenSphere_normals_div_radius (fun _ => 0) (fun _ => 0) 4 1 (by decide)
    (by norm_num) false false

/-- Claim C6: for slices ≥ 4, the index list enumerates for each grid cell
(i, j) with i < slices/2 and j < slices exactly the two triangles
(i,j), (i+1,j), (i+1,j+1) and (i,j), (i+1,j+1), (i,j+1) in row-major grid
numbering v(a,b) = a*(slices+1)+b, the six entries of cell (i, j) sitting
at offset (i*slices + j)*6 of the list. -/
theorem esGenSphere_index_enumeration (s c : ℚ → ℚ) (numSlices : ℕ)
    (radius : ℚ) (h4 : 4 ≤ numSlices) (i j : ℕ)
    (hi : i < numSlices / 2) (hj : j < numSlices) :
    ∃ res idx,
      esGenSphere s c numSlices radius false false false true = some res ∧
      res.indices = some idx ∧
      (idx.drop ((i * numSlices + j) * 6)).take 6 =
        [i * (numSlices + 1) + j,
         (i + 1) * (numSlices + 1) + j,
         (i + 1) * (numSlices + 1) + (j + 1),
         i * (numSlices + 1) + j,
         (i + 1) * (numSlices + 1) + (j + 1),
         i * (numSlices + 1) + (j + 1)] := by
  refine ⟨_, _, rfl, rfl, ?_⟩
  obtain ⟨t, ht⟩ := flatMap_range'_drop
    (fun k => (List.range numSlices).flatMap fun j => sphereCellIndices numSlices k j)
    (numSlices * 6)
    (fun k => flatMap_range_length (fun j => sphereCellIndices numSlices k j) 6
      (fun _ => rfl) numSlices)
    (numSlices / 2) 0 i hi
  obtain ⟨t2, ht2⟩ := flatMap_range'_drop
    (fun j => sphereCellIndices numSlices i j) 6 (fun _ => rfl)
    numSlices 0 j hj
  have hsplit : (i * numSlices + j) * 6 = i * (numSlices * 6) + j * 6 := by ring
  have hle : j * 6 ≤ ((List.range numSlices).flatMap fun j =>
      sphereCellIndices numSlices i j).length := by
    rw [flatMap_range_length (fun j => sphereCellIndices numSlices i j) 6
      (fun _ => rfl) numSlices]
    exact Nat.mul_le_mul (le_of_lt hj) (Nat.le_refl 6)
  unfold sphereIndicesBuf
  rw [List.range_eq_range' (numSlices / 2), hsplit, ← List.drop_drop, ht]
  simp only [Nat.zero_add]
  rw [List.drop_append_of_le_length hle, List.range_eq_range' numSlices, ht2]
  simp only [Nat.zero_add, List.append_assoc]
  exact List.take_left' rfl

/-- Witness for claim C6 at slices = 4, cell (0, 0). -/
theorem esGenSphere_index_enumeration_witness :
    ∃ res idx,
      esGenSphere (fun _ => 0) (fun _ => 0) 4 1 false false false true = some res ∧
      res.indices = some idx ∧
      (idx.drop ((0 * 4 + 0) * 6)).take 6 =
        [0 * (4 + 1) + 0, (0 + 1) * (4 + 1) + 0, (0 + 1) * (4 + 1) + (0 + 1),
         0 * (4 + 1) + 0, (0 + 1) * (4 + 1) + (0 + 1), 0 * (4 + 1) + (0 + 1)] :=
  esGenSphere_index_enumeration (fun _ => 0) (fun _ => 0) 4 1 (by decide) 0 0
    (by decide) (by decide)
